import Mathlib

/-!
Shallow embedding of the MOS 6502 QEMU machine board (`hw/6502_dp264.c`):
the memory-region layout built by `mos6502_init`, the memory-mapped I/O
dispatcher (`io_read` / `io_write`), the console interrupt router
(`read_handler`), the timer tick callback (`timer_callback`), and the
bootstrap sequence, together with theorems about them.

Machine integers are modelled as `Nat`; the C cast `(uint8_t)value`
becomes `value % 256`.  Side effects (console output, stderr diagnostics,
process exit) are modelled as explicit event lists, and the mutable
collaborator state (keyboard buffer, timer counter, console echo flag) as
an explicit state record threaded through the handlers.
-/

namespace MOS6502

/-- The kind tag of an address region (from the layout comment in
`mos6502_init`: RAM, ROM or I/O). -/
inductive RegionKind
  | RAM
  | ROM
  | IOWindow
deriving DecidableEq

/-- An address region as registered by `mos6502_init` via
`memory_region_add_subregion`: a name, a base address, a size in bytes,
a kind, and whether `memory_region_set_readonly(·, true)` was applied. -/
structure MemoryRegion where
  name : String
  base : Nat
  size : Nat
  kind : RegionKind
  readonly : Bool
deriving DecidableEq

/-- `r` contains absolute address `a` iff `a` lies in `[base, base+size)`. -/
def MemoryRegion.containsAddr (r : MemoryRegion) (a : Nat) : Bool :=
  decide (r.base ≤ a ∧ a < r.base + r.size)

/-- `6502.ram1`: `memory_region_init_ram(ram1, "6502.ram1", 0x0FFF - 0x0000 + 1)`,
mapped at `0x0000`. -/
def ram1 : MemoryRegion :=
  ⟨"6502.ram1", 0x0000, 0x0FFF - 0x0000 + 1, RegionKind.RAM, false⟩

/-- `6502.rom`: `memory_region_init_ram(rom, "6502.rom", 0x1FFF - 0x1000 + 1)`,
made read-only by `memory_region_set_readonly(rom, true)`, mapped at `0x1000`. -/
def rom : MemoryRegion :=
  ⟨"6502.rom", 0x1000, 0x1FFF - 0x1000 + 1, RegionKind.ROM, true⟩

/-- `6502.ram2`: `memory_region_init_ram(ram2, "6502.ram2", 0xFFEF - 0x2000 + 1)`,
mapped at `0x2000`.  Note the source's size expression is `0xFFEF - 0x2000 + 1`
even though the layout comment above it says `$2000 - $FDFF` (56832 bytes). -/
def ram2 : MemoryRegion :=
  ⟨"6502.ram2", 0x2000, 0xFFEF - 0x2000 + 1, RegionKind.RAM, false⟩

/-- `6502.io`: `memory_region_init_io(io, &io_ops, NULL, "6502.io",
0xFEFF - 0xFE00 + 1)`, mapped at `0xFE00`. -/
def io : MemoryRegion :=
  ⟨"6502.io", 0xFE00, 0xFEFF - 0xFE00 + 1, RegionKind.IOWindow, false⟩

/-- `6502.ram3`: `memory_region_init_ram(ram3, "6502.ram3", 0xFFFF - 0xFF00 + 1)`,
mapped at `0xFF00`. -/
def ram3 : MemoryRegion :=
  ⟨"6502.ram3", 0xFF00, 0xFFFF - 0xFF00 + 1, RegionKind.RAM, false⟩

/-- The five regions registered by `mos6502_init`, in registration order. -/
def machineRegions : List MemoryRegion := [ram1, rom, ram2, io, ram3]

/-- The three CPU interrupt classes handed to `cpu_interrupt`:
`CPU_INTERRUPT_IRQ`, `CPU_INTERRUPT_NMI`, `CPU_INTERRUPT_RESET`. -/
inductive IntClass
  | IRQ
  | NMI
  | RESET
deriving DecidableEq

/-- The action `read_handler` performs for one incoming console byte:
either a `cpu_interrupt` call with one interrupt class, or `write_char`
buffering the byte as an ordinary input character. -/
inductive ConsoleAction
  | interrupt (c : IntClass)
  | writeChar (b : Nat)
deriving DecidableEq

/-- The per-byte classification done by the body of `read_handler`'s loop:
`'/'` (47) asserts IRQ, `'*'` (42) asserts NMI, `'-'` (45) asserts RESET,
anything else is passed to `write_char`. -/
def classifyByte (b : Nat) : ConsoleAction :=
  if b = 47 then ConsoleAction.interrupt IntClass.IRQ
  else if b = 42 then ConsoleAction.interrupt IntClass.NMI
  else if b = 45 then ConsoleAction.interrupt IntClass.RESET
  else ConsoleAction.writeChar b

/-- `read_handler(opaque, data, datalen)`: the `for` loop over the delivered
buffer, producing the actions for `data[0] .. data[datalen-1]` in order. -/
def read_handler : List Nat → List ConsoleAction
  | [] => []
  | b :: rest =>
    (if b = 47 then ConsoleAction.interrupt IntClass.IRQ
     else if b = 42 then ConsoleAction.interrupt IntClass.NMI
     else if b = 45 then ConsoleAction.interrupt IntClass.RESET
     else ConsoleAction.writeChar b) :: read_handler rest

/-- Mutable collaborator state touched by the I/O dispatcher: the keyboard
input buffer (written by `write_char`, drained by `read_char`), the timer
counter (`set_timer_value` / `get_timer_value`), and the console's local
echo flag (`qemu_chr_fe_set_echo`). -/
structure IOState where
  keyboard : List Nat
  timer : Nat
  echo : Bool
deriving DecidableEq

/-- Observable side effects of the I/O dispatcher: a byte written to the
console (`qemu_chr_fe_write` of one byte), a stderr diagnostic from the
`default` branch of `io_read` or `io_write`, or a process exit. -/
inductive IOEvent
  | consoleOut (b : Nat)
  | logRead (addr : Nat)
  | logWrite (addr : Nat) (value : Nat)
  | exitProcess (code : Int)
deriving DecidableEq

/-- Modelled from the spec: `read_char` (the keyboard-buffer collaborator,
`6502_keyboard.c`, whose source is not part of this file) returns the next
buffered input character without blocking, or a not-ready sentinel (0 here)
when the buffer is empty. -/
def read_char (s : IOState) : Nat × IOState :=
  match s.keyboard with
  | [] => (0, s)
  | b :: rest => (b, { s with keyboard := rest })

/-- Modelled from the spec: `get_timer_value` (the timer collaborator,
`6502_timer.c`, whose source is not part of this file) returns the current
timer counter value. -/
def get_timer_value (s : IOState) : Nat := s.timer

/-- `io_read(opaque, addr, size)`: `switch(addr)` with cases
`KEYB_READ_ADDR` (0x00) returning `read_char()`, `TIMER_READ_ADDR` (0x02)
returning `get_timer_value()`, and a `default` branch that logs the address
to stderr; control then reaches `return 0`.  Result: returned value, emitted
events, and the post-state. -/
def io_read (addr : Nat) (sz : Nat) (s : IOState) : Nat × List IOEvent × IOState :=
  if addr = 0x00 then
    let r := read_char s
    (r.1, [], r.2)
  else if addr = 0x02 then
    (get_timer_value s, [], s)
  else
    (0, [IOEvent.logRead addr], s)

/-- `io_write(opaque, addr, value, size)`: `SCREEN_WRITE_ADDR` (0x00) writes
`c = (uint8_t)value` to the console and, when `c == '\n'` (10), additionally
writes `'\r'` (13); `CON_ECHO_WRITE_ADDR` (0x01) calls
`qemu_chr_fe_set_echo(console, value != 0)` on the full value;
`TIMER_WRITE_ADDR` (0x02) calls `set_timer_value(value)` with the full
value; the `default` branch logs value and address to stderr and discards. -/
def io_write (addr : Nat) (value : Nat) (sz : Nat) (s : IOState) :
    List IOEvent × IOState :=
  if addr = 0x00 then
    let c := value % 256
    (if c = 10 then [IOEvent.consoleOut c, IOEvent.consoleOut 13]
     else [IOEvent.consoleOut c], s)
  else if addr = 0x01 then
    ([], { s with echo := value != 0 })
  else if addr = 0x02 then
    ([], { s with timer := value })
  else
    ([IOEvent.logWrite addr value], s)

/-- `timer_callback(void)`: calls `cpu_interrupt(cpu, CPU_INTERRUPT_IRQ)`.
The C function takes no arguments and reads no machine state; the `IOState`
parameter records that it behaves identically in every machine state (in
particular for every timer counter value). -/
def timer_callback (s : IOState) : List IntClass := [IntClass.IRQ]

/-- The externally visible steps of `mos6502_init`, in program order:
`cpu_init`, the `cpu->pc = 0x1000` assignment, each
`memory_region_add_subregion` call (carrying the region it registers),
the `load_image_targphys` call, the `exit(-1)` on load failure, the
console construction (`text_console_init` and display setup),
`qemu_chr_add_handlers`, `init_keyboard`, and `init_timer`. -/
inductive BootEvent
  | cpuInit
  | setPC (v : Nat)
  | registerRegion (r : MemoryRegion)
  | loadROM (base : Nat) (maxSize : Nat)
  | exitProcess (code : Int)
  | createConsole
  | registerConsoleHandlers
  | initKeyboard
  | initTimer
deriving DecidableEq

/-- The event trace of `mos6502_init`, parametrised by whether
`load_image_targphys` succeeded (returned a non-negative value): on failure
the function prints an error and calls `exit(-1)`; on success it goes on to
build the console and install the keyboard and timer collaborators. -/
def mos6502_init (romLoadOk : Bool) : List BootEvent :=
  [BootEvent.cpuInit, BootEvent.setPC 0x1000] ++
  machineRegions.map BootEvent.registerRegion ++
  [BootEvent.loadROM 0x1000 (0x1FFF - 0x1000 + 1)] ++
  (if romLoadOk then
    [BootEvent.createConsole, BootEvent.registerConsoleHandlers,
     BootEvent.initKeyboard, BootEvent.initTimer]
   else
    [BootEvent.exitProcess (-1)])

/-- Modelled from the spec: `load_image_targphys` (the image-loader
collaborator, whose source is not part of this file) loads a flat binary
blob at the given base address; it fails (negative return) when the image
cannot be read (`none`) or when its length exceeds `maxSize`, and otherwise
returns the image size. -/
def load_image_targphys (image : Option (List Nat)) (base : Nat) (maxSize : Nat) : Int :=
  match image with
  | none => -1
  | some bytes => if bytes.length > maxSize then -1 else (bytes.length : Int)

/-- The ROM region's contents after a successful image load: byte `i` of
the image sits at address `0x1000 + i`; the rest of freshly initialised
RAM-backed storage reads as zero. -/
def bootMem (image : List Nat) : Nat → Nat := fun a =>
  if 0x1000 ≤ a ∧ a < 0x1000 + image.length then image.getD (a - 0x1000) 0 else 0

/-- The bootstrap outcome for a given ROM image: the `mos6502_init` event
trace, and—when the load succeeded—the machine start state (program
counter, ROM contents); `none` means the process terminated via `exit(-1)`
before any CPU execution. -/
def mos6502_boot (image : Option (List Nat)) :
    List BootEvent × Option (Nat × (Nat → Nat)) :=
  if load_image_targphys image 0x1000 (0x1FFF - 0x1000 + 1) < 0 then
    (mos6502_init false, none)
  else
    (mos6502_init true, some (0x1000, bootMem (image.getD [])))

/-- Address dispatch over the registered regions: the first region of
`machineRegions` whose `[base, base+size)` interval contains `a`. -/
def regionFor (a : Nat) : Option MemoryRegion :=
  machineRegions.find? (fun r => r.containsAddr a)

/-- RAM/ROM backing storage of the machine, one byte per address. -/
structure MachineMem where
  store : Nat → Nat

/-- A CPU byte write dispatched through the region table.  Modelled from the
spec for the part outside this file's source: the memory core ignores a
write dispatched to a region marked read-only (`memory_region_set_readonly`),
and an access outside every region is a recognized no-op, not a fault. -/
def memWrite (m : MachineMem) (a : Nat) (v : Nat) : MachineMem :=
  match regionFor a with
  | some r =>
    if r.readonly then m
    else ⟨fun x => if x = a then v % 256 else m.store x⟩
  | none => m

/-- A CPU byte read from backing storage. -/
def memRead (m : MachineMem) (a : Nat) : Nat := m.store a

/-- C1: the bootstrap does register exactly five regions, but they are NOT
pairwise non-overlapping: the source sizes `6502.ram2` as
`0xFFEF - 0x2000 + 1` bytes (despite its own layout comment saying
`$2000 - $FDFF`, 56832 bytes), so `ram2` covers `0x2000`–`0xFFEF` and
address `0xFE00` is contained in both `ram2` and the I/O region — two
regions cover the same byte. -/
theorem c1_five_regions_overlap : machineRegions.length = 5 ∧
    ram2.containsAddr 0xFE00 = true ∧
    io.containsAddr 0xFE00 = true ∧
    (machineRegions.filter (fun r => r.containsAddr 0xFE00)).length = 2 ∧
    ram2.containsAddr 0xFF00 = true ∧
    ram3.containsAddr 0xFF00 = true := by
  decide

/-- C2: the per-byte classification of `read_handler` is total and
exclusive — `'/'` (47) yields exactly an IRQ assertion, `'*'` (42) exactly
NMI, `'-'` (45) exactly RESET, every other byte yields no interrupt and is
forwarded as an ordinary input character — and a delivered buffer is
processed byte by byte in order, each byte classified independently. -/
theorem c2_interrupt_classification (b : Nat) (data : List Nat) :
    (classifyByte b = ConsoleAction.interrupt IntClass.IRQ ↔ b = 47) ∧
    (classifyByte b = ConsoleAction.interrupt IntClass.NMI ↔ b = 42) ∧
    (classifyByte b = ConsoleAction.interrupt IntClass.RESET ↔ b = 45) ∧
    (b ≠ 47 → b ≠ 42 → b ≠ 45 → classifyByte b = ConsoleAction.writeChar b) ∧
    read_handler data = data.map classifyByte := by
  refine ⟨?_, ?_, ?_, ?_, ?_⟩
  · unfold classifyByte; split_ifs <;> simp_all
  · unfold classifyByte; split_ifs <;> simp_all
  · unfold classifyByte; split_ifs <;> simp_all
  · intro h1 h2 h3; unfold classifyByte; split_ifs <;> simp_all
  · induction data with
    | nil => rfl
    | cons c rest ih => simp [read_handler, classifyByte, ih]

/-- Witness for C2 at concrete bytes (the spec's end-to-end buffer
`"A/B"` = `[65, 47, 66]` among them). -/
theorem c2_witness :
    classifyByte 47 = ConsoleAction.interrupt IntClass.IRQ ∧
    classifyByte 42 = ConsoleAction.interrupt IntClass.NMI ∧
    classifyByte 45 = ConsoleAction.interrupt IntClass.RESET ∧
    classifyByte 65 = ConsoleAction.writeChar 65 ∧
    read_handler [65, 47, 66] = [65, 47, 66].map classifyByte :=
  ⟨(c2_interrupt_classification 47 []).1.mpr rfl,
   (c2_interrupt_classification 42 []).2.1.mpr rfl,
   (c2_interrupt_classification 45 []).2.2.1.mpr rfl,
   (c2_interrupt_classification 65 []).2.2.2.1 (by decide) (by decide) (by decide),
   (c2_interrupt_classification 0 [65, 47, 66]).2.2.2.2⟩

/-- C3: an `io_write` at offset 0x00 whose low byte is `'\n'` (10) emits
exactly the two console bytes `'\n'` then `'\r'` (13), in that order; for
every other low byte it emits exactly that one byte and nothing else (and
leaves the collaborator state unchanged). -/
theorem c3_screen_write (value sz : Nat) (s : IOState) :
    (value % 256 = 10 →
      io_write 0x00 value sz s =
        ([IOEvent.consoleOut 10, IOEvent.consoleOut 13], s)) ∧
    (value % 256 ≠ 10 →
      io_write 0x00 value sz s = ([IOEvent.consoleOut (value % 256)], s)) := by
  constructor
  · intro h; simp [io_write, h]
  · intro h; simp [io_write, h]

/-- Witness for C3: writing `'\n'` (10) and writing `'A'` (65). -/
theorem c3_witness :
    io_write 0x00 10 1 ⟨[], 0, false⟩ =
      ([IOEvent.consoleOut 10, IOEvent.consoleOut 13], ⟨[], 0, false⟩) ∧
    io_write 0x00 65 1 ⟨[], 0, false⟩ =
      ([IOEvent.consoleOut 65], ⟨[], 0, false⟩) :=
  ⟨(c3_screen_write 10 1 ⟨[], 0, false⟩).1 (by decide),
   (c3_screen_write 65 1 ⟨[], 0, false⟩).2 (by decide)⟩

/-- C4: at every offset outside the defined ones (0x00/0x02 for reads;
0x00/0x01/0x02 for writes) a read logs a diagnostic and returns 0 with the
state unchanged, and a write logs a diagnostic and discards the value with
the state unchanged; and no `io_read` or `io_write` path ever emits a
process-exit event — unmatched offsets are diagnostic-only. -/
theorem c4_unmatched_offsets (d v sz : Nat) (s : IOState) :
    (d ≠ 0x00 → d ≠ 0x02 → io_read d sz s = (0, [IOEvent.logRead d], s)) ∧
    (d ≠ 0x00 → d ≠ 0x01 → d ≠ 0x02 →
      io_write d v sz s = ([IOEvent.logWrite d v], s)) ∧
    (∀ code : Int, IOEvent.exitProcess code ∉ (io_read d sz s).2.1) ∧
    (∀ code : Int, IOEvent.exitProcess code ∉ (io_write d v sz s).1) := by
  refine ⟨?_, ?_, ?_, ?_⟩
  · intro h1 h2; simp [io_read, h1, h2]
  · intro h1 h2 h3; simp [io_write, h1, h2, h3]
  · intro code; unfold io_read; split_ifs <;> simp
  · intro code
    unfold io_write
    split_ifs <;> simp <;> split_ifs <;> simp

/-- Witness for C4 at the unmatched offset 0x05. -/
theorem c4_witness :
    io_read 0x05 1 ⟨[], 0, false⟩ = (0, [IOEvent.logRead 0x05], ⟨[], 0, false⟩) ∧
    io_write 0x05 9 1 ⟨[], 0, false⟩ = ([IOEvent.logWrite 0x05 9], ⟨[], 0, false⟩) ∧
    IOEvent.exitProcess (-1) ∉ (io_read 0x05 1 ⟨[], 0, false⟩).2.1 ∧
    IOEvent.exitProcess (-1) ∉ (io_write 0x05 9 1 ⟨[], 0, false⟩).1 :=
  ⟨(c4_unmatched_offsets 0x05 9 1 ⟨[], 0, false⟩).1 (by decide) (by decide),
   (c4_unmatched_offsets 0x05 9 1 ⟨[], 0, false⟩).2.1 (by decide) (by decide) (by decide),
   (c4_unmatched_offsets 0x05 9 1 ⟨[], 0, false⟩).2.2.1 (-1),
   (c4_unmatched_offsets 0x05 9 1 ⟨[], 0, false⟩).2.2.2 (-1)⟩

/-- C5: a periodic timer tick asserts exactly the IRQ interrupt class,
in every machine state (in particular for every timer counter value),
and never asserts NMI or RESET. -/
theorem c5_timer_tick (s : IOState) :
    timer_callback s = [IntClass.IRQ] ∧
    IntClass.IRQ ∈ timer_callback s ∧
    IntClass.NMI ∉ timer_callback s ∧
    IntClass.RESET ∉ timer_callback s := by
  refine ⟨rfl, ?_, ?_, ?_⟩ <;> simp [timer_callback]

/-- C6 counterexample: the claimed order (regions first, then ROM load,
then program-counter initialization) is false for the source's bootstrap
trace.  In the trace of a successful bootstrap the `cpu->pc = 0x1000`
assignment occurs before the first region registration and before the ROM
load, not after them. -/
theorem c6_counterexample :
    BootEvent.setPC 0x1000 ∈ mos6502_init true ∧
    BootEvent.registerRegion ram1 ∈ mos6502_init true ∧
    BootEvent.loadROM 0x1000 0x1000 ∈ mos6502_init true ∧
    ¬ ((mos6502_init true).indexOf (BootEvent.registerRegion ram1) <
       (mos6502_init true).indexOf (BootEvent.setPC 0x1000)) ∧
    ¬ ((mos6502_init true).indexOf (BootEvent.loadROM 0x1000 0x1000) <
       (mos6502_init true).indexOf (BootEvent.setPC 0x1000)) := by
  decide

/-- C6 (amended): the bootstrap first initializes the CPU and sets its
program counter to 0x1000, then registers the five address regions in
layout order, then loads the ROM image; on load success it then constructs
the console, registers its handlers with the interrupt router, and
initializes the keyboard buffer and the timer; on load failure it exits
the process instead. -/
theorem c6_boot_order : ∀ ok : Bool,
    (mos6502_init ok).indexOf BootEvent.cpuInit <
      (mos6502_init ok).indexOf (BootEvent.setPC 0x1000) ∧
    (mos6502_init ok).indexOf (BootEvent.setPC 0x1000) <
      (mos6502_init ok).indexOf (BootEvent.registerRegion ram1) ∧
    (mos6502_init ok).indexOf (BootEvent.registerRegion ram1) <
      (mos6502_init ok).indexOf (BootEvent.registerRegion rom) ∧
    (mos6502_init ok).indexOf (BootEvent.registerRegion rom) <
      (mos6502_init ok).indexOf (BootEvent.registerRegion ram2) ∧
    (mos6502_init ok).indexOf (BootEvent.registerRegion ram2) <
      (mos6502_init ok).indexOf (BootEvent.registerRegion io) ∧
    (mos6502_init ok).indexOf (BootEvent.registerRegion io) <
      (mos6502_init ok).indexOf (BootEvent.registerRegion ram3) ∧
    (mos6502_init ok).indexOf (BootEvent.registerRegion ram3) <
      (mos6502_init ok).indexOf (BootEvent.loadROM 0x1000 0x1000) ∧
    BootEvent.loadROM 0x1000 0x1000 ∈ mos6502_init ok ∧
    ((mos6502_init true).indexOf (BootEvent.loadROM 0x1000 0x1000) <
      (mos6502_init true).indexOf BootEvent.createConsole ∧
     (mos6502_init true).indexOf BootEvent.createConsole <
      (mos6502_init true).indexOf BootEvent.registerConsoleHandlers ∧
     (mos6502_init true).indexOf BootEvent.registerConsoleHandlers <
      (mos6502_init true).indexOf BootEvent.initKeyboard ∧
     (mos6502_init true).indexOf BootEvent.initKeyboard <
      (mos6502_init true).indexOf BootEvent.initTimer ∧
     BootEvent.initTimer ∈ mos6502_init true) ∧
    ((mos6502_init false).indexOf (BootEvent.loadROM 0x1000 0x1000) <
      (mos6502_init false).indexOf (BootEvent.exitProcess (-1)) ∧
     BootEvent.exitProcess (-1) ∈ mos6502_init false) := by
  intro ok
  cases ok <;> decide

/-- C7: bootstrapping with a readable ROM image of at most 4096 bytes
succeeds, yields program counter 0x1000 with byte 0 of the image at the
ROM base 0x1000, and emits no process exit; an image larger than 4096
bytes, or an unreadable image, makes the bootstrap terminate the process
(`exit(-1)`) and produce no machine start state. -/
theorem c7_rom_load (bytes : List Nat) :
    (bytes.length ≤ 4096 →
      (mos6502_boot (some bytes)).2 = some (0x1000, bootMem bytes) ∧
      (0 < bytes.length → bootMem bytes 0x1000 = bytes.getD 0 0) ∧
      BootEvent.exitProcess (-1) ∉ (mos6502_boot (some bytes)).1) ∧
    (4096 < bytes.length →
      (mos6502_boot (some bytes)).2 = none ∧
      BootEvent.exitProcess (-1) ∈ (mos6502_boot (some bytes)).1) ∧
    (mos6502_boot none).2 = none ∧
    BootEvent.exitProcess (-1) ∈ (mos6502_boot none).1 := by
  refine ⟨?_, ?_, ?_, ?_⟩
  · intro h
    have hnot : ¬ load_image_targphys (some bytes) 0x1000 (0x1FFF - 0x1000 + 1) < 0 := by
      simp only [load_image_targphys]
      rw [if_neg (by omega)]
      omega
    refine ⟨?_, ?_, ?_⟩
    · simp [mos6502_boot, hnot]
    · intro h0
      have hc : 0x1000 ≤ 0x1000 ∧ 0x1000 < 0x1000 + bytes.length := by omega
      simp only [bootMem]
      rw [if_pos hc]
    · simp only [mos6502_boot, if_neg hnot]
      decide
  · intro h
    have hneg : load_image_targphys (some bytes) 0x1000 (0x1FFF - 0x1000 + 1) < 0 := by
      simp only [load_image_targphys]
      rw [if_pos (by omega)]
      decide
    constructor
    · simp [mos6502_boot, hneg]
    · simp only [mos6502_boot, if_pos hneg]
      decide
  · simp [mos6502_boot, load_image_targphys]
  · simp only [mos6502_boot, load_image_targphys]
    rw [if_pos (by decide)]
    decide

/-- Witness for C7: a one-byte image (the byte 76) succeeds and lands at
0x1000; a 4097-byte image fails fatally. -/
theorem c7_witness :
    (mos6502_boot (some [76])).2 = some (0x1000, bootMem [76]) ∧
    bootMem [76] 0x1000 = [76].getD 0 0 ∧
    (mos6502_boot (some (List.replicate 4097 0))).2 = none ∧
    BootEvent.exitProcess (-1) ∈ (mos6502_boot (some (List.replicate 4097 0))).1 := by
  have h1 := (c7_rom_load [76]).1 (by decide)
  have h2 := (c7_rom_load (List.replicate 4097 0)).2.1
    (by simp only [List.length_replicate]; omega)
  exact ⟨h1.1, h1.2.1 (by decide), h2.1, h2.2⟩

/-- C8 counterexample: no single-byte payload policy is applied identically
at the three defined write offsets.  Offset 0x00 truncates the value to its
low byte, but offset 0x01 tests the FULL value against zero
(`value != 0`): any payload function `p` with values below 256 must, by
pigeonhole on the 257 values `0..256`, identify two values that differ
either in their low byte (distinguished at offset 0x00) or in whether they
are zero (distinguished at offset 0x01, e.g. 0 versus 0x100). -/
theorem c8_counterexample :
    ¬ ∃ p : Nat → Nat, (∀ v, p v < 256) ∧
      (∀ v w, p v = p w → ∀ (sz : Nat) (s : IOState),
        io_write 0x00 v sz s = io_write 0x00 w sz s ∧
        io_write 0x01 v sz s = io_write 0x01 w sz s ∧
        io_write 0x02 v sz s = io_write 0x02 w sz s) := by
  rintro ⟨p, hlt, hcons⟩
  obtain ⟨v, hv, w, hw, hvw, hp⟩ :
      ∃ v ∈ Finset.range 257, ∃ w ∈ Finset.range 257, v ≠ w ∧ p v = p w :=
    Finset.exists_ne_map_eq_of_card_lt_of_maps_to (by simp)
      (fun a _ => Finset.mem_range.mpr (hlt a))
  rw [Finset.mem_range] at hv hw
  obtain ⟨h0, h1, h2⟩ := hcons v w hp 1 ⟨[], 0, false⟩
  have hmod : v % 256 = w % 256 := by
    have hfst := congrArg Prod.fst h0
    by_cases hv10 : v % 256 = 10 <;> by_cases hw10 : w % 256 = 10
    · omega
    · simp [io_write, hv10, hw10] at hfst
    · simp [io_write, hv10, hw10] at hfst
    · simpa [io_write, hv10, hw10] using hfst
  have hzero : (v != 0) = (w != 0) := by
    have hech := congrArg (fun r => r.2.echo) h1
    simpa [io_write] using hech
  have hcase : v = 0 ∧ w = 256 ∨ v = 256 ∧ w = 0 := by omega
  rcases hcase with ⟨rfl, rfl⟩ | ⟨rfl, rfl⟩ <;> simp at hzero

/-- C8 (amended): the three defined write offsets reduce the written value
differently: offset 0x00 uses only the low byte (so two writes agreeing on
the low byte have identical effect there), while offsets 0x01 and 0x02 use
the full written value — 0x01 reduces it to the boolean `value != 0` and
0x02 stores it whole — so writes agreeing only on the low byte (such as 0
and 0x100) can differ in effect at offset 0x01. -/
theorem c8_width_policy (v w sz : Nat) (s : IOState) :
    (v % 256 = w % 256 → io_write 0x00 v sz s = io_write 0x00 w sz s) ∧
    io_write 0x01 v sz s = ([], { s with echo := v != 0 }) ∧
    io_write 0x02 v sz s = ([], { s with timer := v }) ∧
    ((v != 0) = (w != 0) → io_write 0x01 v sz s = io_write 0x01 w sz s) := by
  refine ⟨?_, ?_, ?_, ?_⟩
  · intro h; simp [io_write, h]
  · simp [io_write]
  · simp [io_write]
  · intro h; simp [io_write, h]

/-- Witness for C8 (amended): 0x100 and 0x200 agree on the low byte, so
they act identically at offset 0x00; they are both nonzero, so they act
identically at offset 0x01; and 0x100 sets echo on. -/
theorem c8_witness :
    io_write 0x00 0x100 1 ⟨[], 0, false⟩ = io_write 0x00 0x200 1 ⟨[], 0, false⟩ ∧
    io_write 0x01 0x100 1 ⟨[], 0, false⟩ = io_write 0x01 0x200 1 ⟨[], 0, false⟩ ∧
    io_write 0x01 0x100 1 ⟨[], 0, false⟩ = ([], ⟨[], 0, true⟩) :=
  ⟨(c8_width_policy 0x100 0x200 1 ⟨[], 0, false⟩).1 (by decide),
   (c8_width_policy 0x100 0x200 1 ⟨[], 0, false⟩).2.2.2 (by decide),
   (c8_width_policy 0x100 0x200 1 ⟨[], 0, false⟩).2.1⟩

/-- C9: a CPU byte write to any address in the ROM region 0x1000–0x1FFF
dispatches to the `6502.rom` region, which was registered read-only, so the
backing storage is unchanged and a subsequent read at any address returns
what it returned before the write. -/
theorem c9_rom_immutable (m : MachineMem) (a v : Nat)
    (h1 : 0x1000 ≤ a) (h2 : a ≤ 0x1FFF) :
    memWrite m a v = m ∧
    ∀ x : Nat, memRead (memWrite m a v) x = memRead m x := by
  have hram1 : ram1.containsAddr a = false := by
    simp [MemoryRegion.containsAddr, ram1]
    omega
  have hrom : rom.containsAddr a = true := by
    simp [MemoryRegion.containsAddr, rom]
    omega
  have hr : regionFor a = some rom := by
    simp [regionFor, machineRegions, List.find?, hram1, hrom]
  have hw : memWrite m a v = m := by
    simp [memWrite, hr, rom]
  exact ⟨hw, fun x => by rw [hw]⟩

/-- Witness for C9: writing 7 at the ROM address 0x1234 leaves an
all-zero memory unchanged. -/
theorem c9_witness :
    memWrite ⟨fun _ => 0⟩ 0x1234 7 = ⟨fun _ => 0⟩ ∧
    memRead (memWrite ⟨fun _ => 0⟩ 0x1234 7) 0x1234 = memRead ⟨fun _ => 0⟩ 0x1234 :=
  ⟨(c9_rom_immutable ⟨fun _ => 0⟩ 0x1234 7 (by decide) (by decide)).1,
   (c9_rom_immutable ⟨fun _ => 0⟩ 0x1234 7 (by decide) (by decide)).2 0x1234⟩

/-- C10: an `io_read` at offset 0x01 (the console-echo write offset, not a
defined read offset) takes the `default` branch: it logs a diagnostic,
returns 0, and leaves the machine state — echo flag included — unchanged,
exactly like any other unmatched read offset. -/
theorem c10_echo_offset_read (sz : Nat) (s : IOState) :
    io_read 0x01 sz s = (0, [IOEvent.logRead 0x01], s) := by
  simp [io_read]

end MOS6502
